import Mathlib

/-
Verification of the buildlog recording-session model.

Shallow embedding of the RecordingSession class (src recorder, v2 slim
workflow format) and of the AgentFeedWatcher line-batch processing.
JavaScript runtime details are modelled explicitly:
  - string truthiness (the || operator treats "" and undefined as falsy);
  - uuidv4() is modelled by a fresh-identifier counter threaded through the
    state (the claims never inspect identifier values);
  - Date.now() is modelled by an explicit now : Nat argument (milliseconds);
    Math.round(ms / 1000) becomes (2 * ms + 1000) / 2000 on Nat;
  - the ISO date strings (createdAt, default title) are modelled by the
    underlying millisecond count, since no claim inspects their format;
  - process.env.VSCODE_GIT_ASKPASS_NODE (read by detectEditor) is passed to
    stop as an explicit env : String argument;
  - JS Set objects are modelled as duplicate-free lists in insertion order;
  - methods that throw become Except-valued functions; void methods that
    return early become the identity on the state.
-/

namespace Buildlog

/-- Recording state of a session, mirroring the TypeScript union
RecordingState = idle | recording | paused. -/
inductive RecordingState where
  | idle
  | recording
  | paused
deriving DecidableEq

/-- Kind-specific fields of a step: the tagged variant part of BuildlogStep
(prompt, action, terminal, note, checkpoint, error). TerminalOutcome and
NoteCategory, being string enums at runtime, are modelled as String. -/
inductive StepPayload where
  | prompt (content : String) (context : Option (List String)) (intent : Option String)
  | action (summary : String) (filesCreated filesModified filesDeleted : Option (List String)) (approach : Option String)
  | terminal (command : String) (outcome : String) (summary : Option String) (exitCode : Option Int)
  | note (content : String) (category : Option String)
  | checkpoint (name : String) (summary : String)
  | error (message : String) (resolved : Bool) (resolution : Option String)
deriving DecidableEq

/-- The type discriminator string of a step, as stored in the JSON field
named type. -/
def StepPayload.stepType : StepPayload → String
  | .prompt .. => "prompt"
  | .action .. => "action"
  | .terminal .. => "terminal"
  | .note .. => "note"
  | .checkpoint .. => "checkpoint"
  | .error .. => "error"

/-- One recorded step: BaseStep fields (id, timestamp in seconds since
recording start, sequence) plus the kind-specific payload. -/
structure BuildlogStep where
  id : Nat
  timestamp : Nat
  sequence : Nat
  payload : StepPayload
deriving DecidableEq

/-- Artifact metadata, the fields RecordingSession.stop actually writes. -/
structure BuildlogMetadata where
  id : Nat
  title : String
  createdAt : Nat
  durationSeconds : Nat
  editor : String
  aiProvider : String
  replicable : Bool
deriving DecidableEq

/-- Computed outcome summary of an artifact. -/
structure BuildlogOutcome where
  status : String
  summary : String
  filesCreated : Nat
  filesModified : Nat
  canReplicate : Bool
deriving DecidableEq

/-- The artifact returned by stop: a versioned record with metadata, the
ordered step list and the outcome summary. -/
structure BuildlogFile where
  version : String
  format : String
  metadata : BuildlogMetadata
  steps : List BuildlogStep
  outcome : BuildlogOutcome
deriving DecidableEq

/-- The optional argument of stop: an explicit status and summary. -/
structure StopOutcome where
  status : String
  summary : String
deriving DecidableEq

/-- Truthiness of an optional JS string: undefined and the empty string are
falsy, every other string is truthy. -/
def truthy : Option String → Bool
  | some s => s != ""
  | none => false

/-- The JS expression x || d for an optional string x and default d. -/
def jsOr (x : Option String) (d : String) : String :=
  if truthy x then x.getD "" else d

/-- JS String.prototype.toLowerCase, modelled per character. -/
def lowerStr (s : String) : String := String.mk (s.data.map Char.toLower)

/-- Whether the first character list starts the second one. -/
def startsWithCh : List Char → List Char → Bool
  | [], _ => true
  | _ :: _, [] => false
  | a :: as, b :: bs => a == b && startsWithCh as bs

/-- Whether pat occurs as a contiguous run inside hay: a scan over the
start positions of hay. -/
def containsCh : List Char → List Char → Bool
  | [], pat => pat.isEmpty
  | a :: rest, pat => startsWithCh pat (a :: rest) || containsCh rest pat

/-- The JS test s.includes(pat). -/
def jsIncludes (s pat : String) : Bool :=
  containsCh s.data pat.data

/-- Editor detection from the environment string
process.env.VSCODE_GIT_ASKPASS_NODE (detectEditor in the types module). -/
def detectEditor (appName : String) : String :=
  if jsIncludes (lowerStr appName) "cursor" then "cursor"
  else if jsIncludes (lowerStr appName) "windsurf" then "windsurf"
  else "vscode"

/-- AI-provider detection: the source always returns copilot. -/
def detectAIProvider : String := "copilot"

/-- Math.round(ms / 1000) on a non-negative millisecond count. -/
def roundDivMs (ms : Nat) : Nat := (2 * ms + 1000) / 2000

/-- Mutable fields of a RecordingSession. The two JS Set objects
(filesCreated, filesModified) are duplicate-free lists in insertion order;
nextId is the fresh-identifier supply standing in for uuidv4. -/
structure SessionState where
  state : RecordingState
  sessionId : Nat
  title : String
  startTime : Option Nat
  steps : List BuildlogStep
  sequenceCounter : Nat
  filesCreated : List String
  filesModified : List String
  nextId : Nat
deriving DecidableEq

/-- Session as the constructor leaves it: idle, empty log, the constructor
consumed one fresh identifier for sessionId. -/
def initState : SessionState :=
  { state := RecordingState.idle, sessionId := 0, title := "", startTime := none,
    steps := [], sequenceCounter := 0, filesCreated := [], filesModified := [],
    nextId := 1 }

/-- Set.add on the duplicate-free-list model of a JS Set. -/
def setAdd (l : List String) (x : String) : List String :=
  if x ∈ l then l else l ++ [x]

/-- Adding every element of a list to a JS Set (the forEach loops in
addAction). -/
def setAddAll (l : List String) (xs : List String) : List String :=
  xs.foldl setAdd l

/-- RecordingSession.getTimestamp: seconds since recording start, 0 when
there is no start time. -/
def SessionState.getTimestamp (s : SessionState) (now : Nat) : Nat :=
  match s.startTime with
  | none => 0
  | some t => roundDivMs (now - t)

/-- RecordingSession.addStep: push the step onto the log (the observer
notification has no effect on session state). -/
def SessionState.addStep (s : SessionState) (step : BuildlogStep) : SessionState :=
  { s with steps := s.steps ++ [step] }

/-- RecordingSession.addPrompt. -/
def SessionState.addPrompt (s : SessionState) (now : Nat) (content : String)
    (context : Option (List String)) (intentOpt : Option String) : SessionState :=
  if s.state ≠ RecordingState.recording then s
  else
    SessionState.addStep
      { s with sequenceCounter := s.sequenceCounter + 1, nextId := s.nextId + 1 }
      { id := s.nextId, timestamp := s.getTimestamp now, sequence := s.sequenceCounter,
        payload := StepPayload.prompt content context intentOpt }

/-- RecordingSession.addAction: updates the file-touch sets, then appends
the step. -/
def SessionState.addAction (s : SessionState) (now : Nat) (summary : String)
    (fc fm fd : Option (List String)) (approach : Option String) : SessionState :=
  if s.state ≠ RecordingState.recording then s
  else
    SessionState.addStep
      { s with
        filesCreated := setAddAll s.filesCreated (fc.getD []),
        filesModified := setAddAll s.filesModified (fm.getD []),
        sequenceCounter := s.sequenceCounter + 1, nextId := s.nextId + 1 }
      { id := s.nextId, timestamp := s.getTimestamp now, sequence := s.sequenceCounter,
        payload := StepPayload.action summary fc fm fd approach }

/-- RecordingSession.addTerminal. -/
def SessionState.addTerminal (s : SessionState) (now : Nat) (command : String)
    (outcome : String) (summary : Option String) (exitCode : Option Int) : SessionState :=
  if s.state ≠ RecordingState.recording then s
  else
    SessionState.addStep
      { s with sequenceCounter := s.sequenceCounter + 1, nextId := s.nextId + 1 }
      { id := s.nextId, timestamp := s.getTimestamp now, sequence := s.sequenceCounter,
        payload := StepPayload.terminal command outcome summary exitCode }

/-- RecordingSession.addNote. -/
def SessionState.addNote (s : SessionState) (now : Nat) (content : String)
    (category : Option String) : SessionState :=
  if s.state ≠ RecordingState.recording then s
  else
    SessionState.addStep
      { s with sequenceCounter := s.sequenceCounter + 1, nextId := s.nextId + 1 }
      { id := s.nextId, timestamp := s.getTimestamp now, sequence := s.sequenceCounter,
        payload := StepPayload.note content category }

/-- RecordingSession.addCheckpoint. -/
def SessionState.addCheckpoint (s : SessionState) (now : Nat) (name : String)
    (summary : String) : SessionState :=
  if s.state ≠ RecordingState.recording then s
  else
    SessionState.addStep
      { s with sequenceCounter := s.sequenceCounter + 1, nextId := s.nextId + 1 }
      { id := s.nextId, timestamp := s.getTimestamp now, sequence := s.sequenceCounter,
        payload := StepPayload.checkpoint name summary }

/-- RecordingSession.addError. -/
def SessionState.addError (s : SessionState) (now : Nat) (message : String)
    (resolved : Bool) (resolution : Option String) : SessionState :=
  if s.state ≠ RecordingState.recording then s
  else
    SessionState.addStep
      { s with sequenceCounter := s.sequenceCounter + 1, nextId := s.nextId + 1 }
      { id := s.nextId, timestamp := s.getTimestamp now, sequence := s.sequenceCounter,
        payload := StepPayload.error message resolved resolution }

/-- RecordingSession.start: throws when already recording; otherwise fresh
identity, default title when the argument is absent or empty (the source
default is a date-stamped string, modelled from now), cleared log, counters
and file sets, state set to recording. -/
def SessionState.start (s : SessionState) (now : Nat) (title : Option String) :
    Except String SessionState :=
  if s.state = RecordingState.recording then Except.error "Recording already in progress"
  else
    Except.ok
      { state := RecordingState.recording, sessionId := s.nextId,
        title := jsOr title ("Workflow " ++ toString now),
        startTime := some now, steps := [], sequenceCounter := 0,
        filesCreated := [], filesModified := [], nextId := s.nextId + 1 }

/-- The hasPrompts check in stop: this.steps.some(s => s.type === "prompt"). -/
def SessionState.hasPrompts (s : SessionState) : Bool :=
  s.steps.any (fun st => st.payload.stepType == "prompt")

/-- RecordingSession.stop: throws when not recording; otherwise assembles
the artifact from the accumulated state and resets the session to the idle
defaults. Returns the artifact together with the post-stop session state. -/
def SessionState.stop (s : SessionState) (now : Nat) (env : String)
    (outcome : Option StopOutcome) : Except String (BuildlogFile × SessionState) :=
  if s.state ≠ RecordingState.recording then Except.error "No recording in progress"
  else
    let startT := s.startTime.getD 0
    let hasP := s.hasPrompts
    let metadata : BuildlogMetadata :=
      { id := s.sessionId, title := s.title, createdAt := startT,
        durationSeconds := roundDivMs (now - startT),
        editor := detectEditor env, aiProvider := detectAIProvider,
        replicable := hasP }
    let outc : BuildlogOutcome :=
      { status := jsOr (outcome.map StopOutcome.status)
          (if hasP then "success" else "abandoned"),
        summary := jsOr (outcome.map StopOutcome.summary)
          ("Recorded " ++ toString s.steps.length ++ " steps"),
        filesCreated := s.filesCreated.length,
        filesModified := s.filesModified.length,
        canReplicate := hasP }
    Except.ok
      ({ version := "2.0.0", format := "slim", metadata := metadata,
         steps := s.steps, outcome := outc },
       { s with
         state := RecordingState.idle, steps := [], startTime := none,
         title := "", sequenceCounter := 0, filesCreated := [], filesModified := [] })

/-- RecordingSession.getState. -/
def SessionState.getState (s : SessionState) : RecordingState := s.state

/-- RecordingSession.getDuration: milliseconds since start, 0 when idle. -/
def SessionState.getDuration (s : SessionState) (now : Nat) : Nat :=
  match s.startTime with
  | none => 0
  | some t => now - t

/-- RecordingSession.getStepCount. -/
def SessionState.getStepCount (s : SessionState) : Nat := s.steps.length

/-- RecordingSession.getPromptCount. -/
def SessionState.getPromptCount (s : SessionState) : Nat :=
  (s.steps.filter (fun st => st.payload.stepType == "prompt")).length

/-- RecordingSession.getTitle. -/
def SessionState.getTitle (s : SessionState) : String := s.title

/-- RecordingSession.isRecording. -/
def SessionState.isRecording (s : SessionState) : Bool :=
  s.state == RecordingState.recording

/-- Return value of RecordingSession.getStats. -/
structure SessionStats where
  totalSteps : Nat
  prompts : Nat
  actions : Nat
  notes : Nat
  others : Nat
  filesCreated : Nat
  filesModified : Nat
deriving DecidableEq

/-- RecordingSession.getStats. -/
def SessionState.getStats (s : SessionState) : SessionStats :=
  let prompts := (s.steps.filter (fun st => st.payload.stepType == "prompt")).length
  let actions := (s.steps.filter (fun st => st.payload.stepType == "action")).length
  let notes := (s.steps.filter (fun st => st.payload.stepType == "note")).length
  { totalSteps := s.steps.length, prompts := prompts, actions := actions,
    notes := notes, others := s.steps.length - prompts - actions - notes,
    filesCreated := s.filesCreated.length, filesModified := s.filesModified.length }

/-- One mutation call of the session API, with the argument values the
caller passes (the wall-clock time of the call is paired on separately). -/
inductive Op where
  | addPrompt (content : String) (context : Option (List String)) (intentOpt : Option String)
  | addAction (summary : String) (filesCreated filesModified filesDeleted : Option (List String)) (approach : Option String)
  | addTerminal (command : String) (outcome : String) (summary : Option String) (exitCode : Option Int)
  | addNote (content : String) (category : Option String)
  | addCheckpoint (name : String) (summary : String)
  | addError (message : String) (resolved : Bool) (resolution : Option String)
deriving DecidableEq

/-- The payload that an accepted mutation call stores in its step. -/
def Op.payload : Op → StepPayload
  | .addPrompt c ctx i => StepPayload.prompt c ctx i
  | .addAction sm fc fm fd ap => StepPayload.action sm fc fm fd ap
  | .addTerminal cmd oc sm ec => StepPayload.terminal cmd oc sm ec
  | .addNote c cat => StepPayload.note c cat
  | .addCheckpoint n sm => StepPayload.checkpoint n sm
  | .addError m r res => StepPayload.error m r res

/-- Whether a mutation call is an addPrompt call. -/
def Op.isPrompt : Op → Bool
  | .addPrompt .. => true
  | _ => false

/-- File paths a mutation call feeds into the filesCreated set (only
addAction touches it). -/
def Op.filesCreatedList : Op → List String
  | .addAction _ fc _ _ _ => fc.getD []
  | _ => []

/-- File paths a mutation call feeds into the filesModified set. -/
def Op.filesModifiedList : Op → List String
  | .addAction _ _ fm _ _ => fm.getD []
  | _ => []

/-- Dispatch one timed mutation call to the corresponding session method. -/
def applyOp (p : Nat × Op) (s : SessionState) : SessionState :=
  match p.2 with
  | .addPrompt c ctx i => s.addPrompt p.1 c ctx i
  | .addAction sm fc fm fd ap => s.addAction p.1 sm fc fm fd ap
  | .addTerminal cmd oc sm ec => s.addTerminal p.1 cmd oc sm ec
  | .addNote c cat => s.addNote p.1 c cat
  | .addCheckpoint n sm => s.addCheckpoint p.1 n sm
  | .addError m r res => s.addError p.1 m r res

/-- Run a sequence of timed mutation calls left to right. -/
def runOps (l : List (Nat × Op)) (s : SessionState) : SessionState :=
  l.foldl (fun st p => applyOp p st) s

/-- One successfully JSON-parsed agent-feed entry, dispatched on its type
discriminator; unknown covers every discriminator outside the five
recognized kinds. Field optionality follows the AgentFeedEntry interfaces. -/
inductive AgentFeedEntry where
  | prompt (content : String) (raw : Option String) (context : Option (List String)) (intentOpt : Option String)
  | action (summary : Option String) (content : Option String) (filesCreated filesModified filesDeleted : Option (List String)) (approach : Option String)
  | note (content : String) (category : Option String)
  | error (message : String) (resolved : Option Bool) (resolution : Option String)
  | checkpoint (name : String) (summary : String)
  | unknown (typeTag : String)
deriving DecidableEq

/-- AgentFeedWatcher.addEntryToSession: the switch translating one feed
entry into at most one session mutation call. The default branch (unknown
discriminator) only logs. The default argument resolved = false of addError
applies when the feed omits the flag (JS default parameters fire on
undefined). -/
def addEntryToSession (now : Nat) (e : AgentFeedEntry) (s : SessionState) : SessionState :=
  match e with
  | .prompt content raw ctx intentOpt =>
      s.addPrompt now (jsOr raw content) ctx
        (if truthy raw then some content else intentOpt)
  | .action summaryOpt contentOpt fc fm fd ap =>
      s.addAction now (jsOr summaryOpt (jsOr contentOpt "Action performed")) fc fm fd ap
  | .note content cat => s.addNote now content cat
  | .error msg res resolutionOpt => s.addError now msg (res.getD false) resolutionOpt
  | .checkpoint n sm => s.addCheckpoint now n sm
  | .unknown _ => s

/-- AgentFeedWatcher.processNewLines on one batch of appended lines. Each
line is given by its JSON.parse outcome: none when parsing threw (the line
is skipped by the catch), some entry otherwise. The watcher returns without
touching the session unless it is recording. -/
def processBatch (now : Nat) (batch : List (Option AgentFeedEntry)) (s : SessionState) :
    SessionState :=
  if s.state ≠ RecordingState.recording then s
  else
    batch.foldl
      (fun st line =>
        match line with
        | none => st
        | some e => addEntryToSession now e st)
      s

/-- The single mutation call a recognized feed entry is translated into;
none exactly for unknown discriminators. -/
def entryToOp : AgentFeedEntry → Option Op
  | .prompt content raw ctx intentOpt =>
      some (Op.addPrompt (jsOr raw content) ctx
        (if truthy raw then some content else intentOpt))
  | .action summaryOpt contentOpt fc fm fd ap =>
      some (Op.addAction (jsOr summaryOpt (jsOr contentOpt "Action performed")) fc fm fd ap)
  | .note content cat => some (Op.addNote content cat)
  | .error msg res r => some (Op.addError msg (res.getD false) r)
  | .checkpoint n sm => some (Op.addCheckpoint n sm)
  | .unknown _ => none

/-- Whether a parsed entry carries one of the five recognized type
discriminators. -/
def AgentFeedEntry.isRecognized : AgentFeedEntry → Bool
  | .unknown _ => false
  | _ => true

/-- Session state immediately after initState.start 0 none, used as the
concrete instance in witnesses. -/
def demoStarted : SessionState :=
  { state := RecordingState.recording, sessionId := 1, title := "Workflow 0",
    startTime := some 0, steps := [], sequenceCounter := 0,
    filesCreated := [], filesModified := [], nextId := 2 }

/-- The step an accepted mutation call appends, as a function of the state
before the call. -/
def stepOf (s : SessionState) (p : Nat × Op) : BuildlogStep :=
  { id := s.nextId, timestamp := s.getTimestamp p.1, sequence := s.sequenceCounter,
    payload := p.2.payload }

lemma applyOp_not_recording (p : Nat × Op) (s : SessionState)
    (h : s.state ≠ RecordingState.recording) : applyOp p s = s := by
  rcases p with ⟨now, op⟩
  cases op <;>
    simp [applyOp, SessionState.addPrompt, SessionState.addAction,
      SessionState.addTerminal, SessionState.addNote, SessionState.addCheckpoint,
      SessionState.addError, h]

lemma applyOp_recording (p : Nat × Op) (s : SessionState)
    (h : s.state = RecordingState.recording) :
    applyOp p s =
      { s with
        steps := s.steps ++ [stepOf s p],
        sequenceCounter := s.sequenceCounter + 1,
        nextId := s.nextId + 1,
        filesCreated := setAddAll s.filesCreated p.2.filesCreatedList,
        filesModified := setAddAll s.filesModified p.2.filesModifiedList } := by
  rcases p with ⟨now, op⟩
  cases op <;>
    simp [applyOp, SessionState.addPrompt, SessionState.addAction,
      SessionState.addTerminal, SessionState.addNote, SessionState.addCheckpoint,
      SessionState.addError, SessionState.addStep, stepOf, Op.payload,
      Op.filesCreatedList, Op.filesModifiedList, setAddAll, h]

lemma applyOp_state (p : Nat × Op) (s : SessionState) :
    (applyOp p s).state = s.state := by
  by_cases h : s.state = RecordingState.recording
  · rw [applyOp_recording p s h]
  · rw [applyOp_not_recording p s h]

lemma runOps_cons (p : Nat × Op) (rest : List (Nat × Op)) (s : SessionState) :
    runOps (p :: rest) s = runOps rest (applyOp p s) := rfl

lemma runOps_not_recording (l : List (Nat × Op)) :
    ∀ s : SessionState, s.state ≠ RecordingState.recording → runOps l s = s := by
  induction l with
  | nil => intro s _; rfl
  | cons p rest ih =>
      intro s h
      rw [runOps_cons, applyOp_not_recording p s h, ih s h]

lemma runOps_recording (l : List (Nat × Op)) :
    ∀ s : SessionState, s.state = RecordingState.recording →
      (runOps l s).state = RecordingState.recording ∧
      (runOps l s).startTime = s.startTime ∧
      (runOps l s).sequenceCounter = s.sequenceCounter + l.length ∧
      (runOps l s).steps.map BuildlogStep.payload
        = s.steps.map BuildlogStep.payload ++ l.map (fun p => p.2.payload) ∧
      (runOps l s).filesCreated
        = setAddAll s.filesCreated (l.map (fun p => p.2.filesCreatedList)).flatten ∧
      (runOps l s).filesModified
        = setAddAll s.filesModified (l.map (fun p => p.2.filesModifiedList)).flatten := by
  induction l with
  | nil => intro s h; simp [runOps, setAddAll, h]
  | cons p rest ih =>
      intro s h
      rw [runOps_cons]
      have hstep := applyOp_recording p s h
      have hstate : (applyOp p s).state = RecordingState.recording := by
        rw [applyOp_state, h]
      obtain ⟨c1, c2, c3, c4, c5, c6⟩ := ih (applyOp p s) hstate
      refine ⟨c1, ?_, ?_, ?_, ?_, ?_⟩
      · rw [c2, hstep]
      · rw [c3, hstep]; simp; omega
      · rw [c4, hstep]
        simp [stepOf]
      · rw [c5, hstep]
        simp only [List.map_cons, List.flatten_cons, setAddAll, List.foldl_append]
      · rw [c6, hstep]
        simp only [List.map_cons, List.flatten_cons, setAddAll, List.foldl_append]

/-- Every step in the log carries its zero-based index as its sequence
number. -/
def seqIndexed (s : SessionState) : Prop :=
  ∀ i (hi : i < s.steps.length), (s.steps.get ⟨i, hi⟩).sequence = i

lemma applyOp_seqIndexed (p : Nat × Op) (s : SessionState)
    (h : s.state = RecordingState.recording)
    (hlen : s.steps.length = s.sequenceCounter) (hseq : seqIndexed s) :
    (applyOp p s).steps.length = (applyOp p s).sequenceCounter ∧
      seqIndexed (applyOp p s) := by
  rw [applyOp_recording p s h]
  constructor
  · simp [hlen]
  · intro i hi
    simp only [List.length_append, List.length_cons, List.length_nil] at hi
    rw [List.get_eq_getElem]
    rcases Nat.lt_or_ge i s.steps.length with hlt | hge
    · rw [List.getElem_append_left hlt]
      have hx := hseq i hlt
      rw [List.get_eq_getElem] at hx
      exact hx
    · have hi2 : i = s.steps.length := by omega
      subst hi2
      rw [List.getElem_append_right (Nat.le_refl _)]
      simp [stepOf]
      omega

lemma runOps_seqIndexed (l : List (Nat × Op)) :
    ∀ s : SessionState, s.state = RecordingState.recording →
      s.steps.length = s.sequenceCounter → seqIndexed s →
      (runOps l s).steps.length = (runOps l s).sequenceCounter ∧
        seqIndexed (runOps l s) := by
  induction l with
  | nil => intro s _ hlen hseq; exact ⟨hlen, hseq⟩
  | cons p rest ih =>
      intro s h hlen hseq
      rw [runOps_cons]
      obtain ⟨hlen2, hseq2⟩ := applyOp_seqIndexed p s h hlen hseq
      exact ih (applyOp p s) (by rw [applyOp_state, h]) hlen2 hseq2

lemma mem_setAdd (l : List String) (x y : String) :
    y ∈ setAdd l x ↔ y ∈ l ∨ y = x := by
  by_cases hx : x ∈ l <;> simp [setAdd, hx]
  exact fun he => he ▸ hx

lemma nodup_setAdd (l : List String) (x : String) (h : l.Nodup) :
    (setAdd l x).Nodup := by
  by_cases hx : x ∈ l <;> simp [setAdd, hx]
  · exact h
  · simp [List.nodup_append, h, hx]

lemma mem_setAddAll (xs : List String) :
    ∀ (l : List String) (y : String), y ∈ setAddAll l xs ↔ y ∈ l ∨ y ∈ xs := by
  induction xs with
  | nil => simp [setAddAll]
  | cons a t ih =>
      intro l y
      have h1 : setAddAll l (a :: t) = setAddAll (setAdd l a) t := rfl
      rw [h1, ih, mem_setAdd]
      simp [or_assoc]

lemma nodup_setAddAll (xs : List String) :
    ∀ l : List String, l.Nodup → (setAddAll l xs).Nodup := by
  induction xs with
  | nil => intro l h; exact h
  | cons a t ih =>
      intro l h
      exact ih (setAdd l a) (nodup_setAdd l a h)

lemma length_setAddAll_nil (xs : List String) :
    (setAddAll [] xs).length = xs.toFinset.card := by
  have hnd : (setAddAll [] xs).Nodup := nodup_setAddAll xs [] List.nodup_nil
  have hfin : (setAddAll [] xs).toFinset = xs.toFinset := by
    ext y
    simp [List.mem_toFinset, mem_setAddAll]
  rw [← List.toFinset_card_of_nodup hnd, hfin]

lemma start_ok {s : SessionState} {now : Nat} {title : Option String}
    {s1 : SessionState} (h : s.start now title = Except.ok s1) :
    s1.state = RecordingState.recording ∧ s1.steps = [] ∧
    s1.sequenceCounter = 0 ∧ s1.filesCreated = [] ∧ s1.filesModified = [] ∧
    s1.startTime = some now := by
  unfold SessionState.start at h
  split at h
  · simp at h
  · injection h with h1
    subst h1
    exact ⟨rfl, rfl, rfl, rfl, rfl, rfl⟩

lemma stop_ok {s : SessionState} {now : Nat} {env : String}
    {outcome : Option StopOutcome} {b : BuildlogFile} {s1 : SessionState}
    (h : s.stop now env outcome = Except.ok (b, s1)) :
    s.state = RecordingState.recording ∧
    b.steps = s.steps ∧
    b.metadata.replicable = s.hasPrompts ∧
    b.outcome.canReplicate = s.hasPrompts ∧
    b.outcome.status
      = jsOr (outcome.map StopOutcome.status)
          (if s.hasPrompts = true then "success" else "abandoned") ∧
    b.outcome.summary
      = jsOr (outcome.map StopOutcome.summary)
          ("Recorded " ++ toString s.steps.length ++ " steps") ∧
    b.outcome.filesCreated = s.filesCreated.length ∧
    b.outcome.filesModified = s.filesModified.length ∧
    s1 = { s with
           state := RecordingState.idle, steps := [], startTime := none,
           title := "", sequenceCounter := 0, filesCreated := [],
           filesModified := [] } := by
  unfold SessionState.stop at h
  split at h
  · simp at h
  · next hrec =>
      have hrec2 : s.state = RecordingState.recording := by
        by_contra hc
        exact hrec hc
      injection h with h1
      rw [Prod.mk.injEq] at h1
      obtain ⟨hb, hs1⟩ := h1
      subst hb
      subst hs1
      exact ⟨hrec2, rfl, rfl, rfl, rfl, rfl, rfl, rfl, rfl⟩

lemma stepType_eq_isPrompt (op : Op) :
    (op.payload.stepType == "prompt") = op.isPrompt := by
  cases op <;> rfl

lemma any_payload_isPrompt (l : List (Nat × Op)) :
    (l.map (fun p => p.2.payload)).any (fun pl => pl.stepType == "prompt")
      = l.any (fun p => p.2.isPrompt) := by
  induction l with
  | nil => rfl
  | cons a t ih => simp [List.any_cons, ih, stepType_eq_isPrompt]

lemma any_eq_map_any (l : List BuildlogStep) :
    l.any (fun st => st.payload.stepType == "prompt")
      = (l.map BuildlogStep.payload).any (fun pl => pl.stepType == "prompt") := by
  induction l with
  | nil => rfl
  | cons a t ih => simp [List.any_cons, ih]

lemma hasPrompts_runOps (l : List (Nat × Op)) (s : SessionState)
    (h : s.state = RecordingState.recording) (hsteps : s.steps = []) :
    (runOps l s).hasPrompts = l.any (fun p => p.2.isPrompt) := by
  obtain ⟨-, -, -, c4, -, -⟩ := runOps_recording l s h
  unfold SessionState.hasPrompts
  rw [any_eq_map_any, c4, hsteps]
  simpa using any_payload_isPrompt l

lemma length_steps_runOps (l : List (Nat × Op)) (s : SessionState)
    (h : s.state = RecordingState.recording) (hsteps : s.steps = []) :
    (runOps l s).steps.length = l.length := by
  obtain ⟨-, -, -, c4, -, -⟩ := runOps_recording l s h
  have h2 := congrArg List.length c4
  simpa [hsteps] using h2

lemma addEntry_eq (now : Nat) (e : AgentFeedEntry) (s : SessionState) :
    addEntryToSession now e s
      = match entryToOp e with
        | some op => applyOp (now, op) s
        | none => s := by
  cases e <;> rfl

lemma addEntry_state (now : Nat) (e : AgentFeedEntry) (s : SessionState) :
    (addEntryToSession now e s).state = s.state := by
  rcases hop : entryToOp e with _ | op <;>
    simp [addEntry_eq, hop, applyOp_state]

lemma feedFold_eq (now : Nat) (batch : List (Option AgentFeedEntry)) :
    ∀ s : SessionState,
      batch.foldl
        (fun st line =>
          match line with
          | none => st
          | some e => addEntryToSession now e st) s
        = runOps (((batch.filterMap id).filterMap entryToOp).map
            (fun op => (now, op))) s := by
  induction batch with
  | nil => intro s; rfl
  | cons line rest ih =>
      intro s
      cases line with
      | none => simpa using ih s
      | some e =>
          have hstep : (some e :: rest).foldl
              (fun st line =>
                match line with
                | none => st
                | some e => addEntryToSession now e st) s
              = rest.foldl
                  (fun st line =>
                    match line with
                    | none => st
                    | some e => addEntryToSession now e st)
                  (addEntryToSession now e s) := rfl
          rcases hop : entryToOp e with _ | op
          · have h1 : addEntryToSession now e s = s := by rw [addEntry_eq, hop]
            rw [hstep, h1, ih s]
            simp [List.filterMap_cons, hop]
          · have h1 : addEntryToSession now e s = applyOp (now, op) s := by
              rw [addEntry_eq, hop]
            rw [hstep, h1, ih (applyOp (now, op) s)]
            simp [List.filterMap_cons, hop, runOps_cons]

lemma processBatch_recording (now : Nat) (batch : List (Option AgentFeedEntry))
    (s : SessionState) (h : s.state = RecordingState.recording) :
    processBatch now batch s
      = runOps (((batch.filterMap id).filterMap entryToOp).map
          (fun op => (now, op))) s := by
  unfold processBatch
  rw [if_neg (by simp [h])]
  exact feedFold_eq now batch s

lemma entryToOp_isSome (e : AgentFeedEntry) :
    (entryToOp e).isSome = e.isRecognized := by
  cases e <;> rfl

lemma length_filterMap_entryToOp (l : List AgentFeedEntry) :
    (l.filterMap entryToOp).length
      = (l.filter AgentFeedEntry.isRecognized).length := by
  induction l with
  | nil => rfl
  | cons e t ih =>
      rcases hop : entryToOp e with _ | op
      · have hrec : e.isRecognized = false := by
          rw [← entryToOp_isSome, hop]
          rfl
        simp [List.filterMap_cons, List.filter_cons, hop, hrec, ih]
      · have hrec : e.isRecognized = true := by
          rw [← entryToOp_isSome, hop]
          rfl
        simp [List.filterMap_cons, List.filter_cons, hop, hrec, ih]

lemma seqIndexed_of_eq {l1 l2 : List BuildlogStep} (h : l1 = l2)
    (hs : ∀ i (hi : i < l2.length), (l2.get ⟨i, hi⟩).sequence = i) :
    ∀ i (hi : i < l1.length), (l1.get ⟨i, hi⟩).sequence = i := by
  subst h
  exact hs

lemma s1_seq_facts {s0 s1 : SessionState} {now : Nat} {title : Option String}
    (hstart : s0.start now title = Except.ok s1) :
    s1.steps.length = s1.sequenceCounter ∧ seqIndexed s1 := by
  obtain ⟨-, hsteps, hcounter, -, -, -⟩ := start_ok hstart
  constructor
  · rw [hsteps, hcounter]
    rfl
  · intro i hi
    rw [hsteps] at hi
    exact absurd hi (Nat.not_lt_zero i)

/-- Timed mutation calls used as concrete witness input. -/
def demoOps : List (Nat × Op) :=
  [(1000, Op.addPrompt "Create a hello world function" none none),
   (2000, Op.addAction "Created hello.js" (some ["hello.js"]) none none none)]

/-- One accepted prompt call, witness input. -/
def demoPromptOps : List (Nat × Op) := [(1000, Op.addPrompt "p" none none)]

/-- Two accepted action calls with overlapping file lists, witness input. -/
def demoActionOps : List (Nat × Op) :=
  [(1000, Op.addAction "a" (some ["x.js", "y.js"]) (some ["x.js"]) none none),
   (2000, Op.addAction "b" (some ["x.js"]) (some ["x.js", "z.js"]) none none)]

/-- The artifact produced by stopping the demoPromptOps run at time 3000. -/
def demoPromptArtifact : BuildlogFile :=
  { version := "2.0.0", format := "slim",
    metadata := {
      id := 1, title := "Workflow 0", createdAt := 0, durationSeconds := 3,
      editor := "vscode", aiProvider := "copilot", replicable := true },
    steps := [{ id := 2, timestamp := 1, sequence := 0,
                payload := StepPayload.prompt "p" none none }],
    outcome := {
      status := "success", summary := "Recorded 1 steps",
      filesCreated := 0, filesModified := 0, canReplicate := true } }

/-- The artifact produced by stopping the demoActionOps run at time 5000. -/
def demoActionArtifact : BuildlogFile :=
  { version := "2.0.0", format := "slim",
    metadata := {
      id := 1, title := "Workflow 0", createdAt := 0, durationSeconds := 5,
      editor := "vscode", aiProvider := "copilot", replicable := false },
    steps := [{ id := 2, timestamp := 1, sequence := 0,
                payload := StepPayload.action "a" (some ["x.js", "y.js"]) (some ["x.js"]) none none },
              { id := 3, timestamp := 2, sequence := 1,
                payload := StepPayload.action "b" (some ["x.js"]) (some ["x.js", "z.js"]) none none }],
    outcome := {
      status := "abandoned", summary := "Recorded 2 steps",
      filesCreated := 2, filesModified := 2, canReplicate := false } }

/-- Post-stop session state when n identifiers have been consumed. -/
def demoFinished (n : Nat) : SessionState :=
  { state := RecordingState.idle, sessionId := 1, title := "", startTime := none,
    steps := [], sequenceCounter := 0, filesCreated := [], filesModified := [],
    nextId := n }

/-- C1: for every sequence of accepted mutation calls between start and
stop, the artifact steps array preserves exactly the acceptance order
(each accepted call contributes exactly one step, with its own payload, at
the end of the log), the sequence number of each step equals its zero-based
index, and at every intermediate point while recording the invariant
steps.length = sequenceCounter holds. -/
theorem session_steps_acceptance_order_and_sequence
    (now now2 : Nat) (title : Option String) (env : String)
    (outArg : Option StopOutcome) (s0 s1 : SessionState) (l : List (Nat × Op))
    (hstart : s0.start now title = Except.ok s1) :
    (∀ l1 l2 : List (Nat × Op), l = l1 ++ l2 →
        (runOps l1 s1).state = RecordingState.recording ∧
        (runOps l1 s1).steps.length = (runOps l1 s1).sequenceCounter) ∧
    (runOps l s1).steps.map BuildlogStep.payload
      = l.map (fun p => p.2.payload) ∧
    (∀ b s2, (runOps l s1).stop now2 env outArg = Except.ok (b, s2) →
        b.steps = (runOps l s1).steps ∧
        ∀ i (hi : i < b.steps.length), (b.steps.get ⟨i, hi⟩).sequence = i) := by
  obtain ⟨hrec, hsteps, hcounter, -, -, -⟩ := start_ok hstart
  obtain ⟨hlen0, hseq0⟩ := s1_seq_facts hstart
  refine ⟨?_, ?_, ?_⟩
  · intro l1 l2 hl
    exact ⟨(runOps_recording l1 s1 hrec).1,
      (runOps_seqIndexed l1 s1 hrec hlen0 hseq0).1⟩
  · have r := (runOps_recording l s1 hrec).2.2.2.1
    rw [hsteps] at r
    simpa using r
  · intro b s2 hstop
    have hbsteps := (stop_ok hstop).2.1
    refine ⟨hbsteps, ?_⟩
    exact seqIndexed_of_eq hbsteps (runOps_seqIndexed l s1 hrec hlen0 hseq0).2

/-- Witness for C1 at a concrete run: a prompt call then an action call. -/
theorem session_steps_acceptance_order_witness :
    (runOps demoOps demoStarted).steps.map BuildlogStep.payload
      = demoOps.map (fun p => p.2.payload) :=
  (session_steps_acceptance_order_and_sequence 0 3000 none "" none initState
      demoStarted demoOps rfl).2.1

/-- C2: metadata.replicable and outcome.canReplicate both equal the test
that at least one prompt step was accepted, and with no accepted prompt
and no explicit outcome argument the status is abandoned. -/
theorem replicable_iff_prompt_accepted
    (now now2 : Nat) (title : Option String) (env : String)
    (outArg : Option StopOutcome) (s0 s1 : SessionState) (l : List (Nat × Op))
    (hstart : s0.start now title = Except.ok s1) :
    ∀ b s2, (runOps l s1).stop now2 env outArg = Except.ok (b, s2) →
      b.metadata.replicable = l.any (fun p => p.2.isPrompt) ∧
      b.outcome.canReplicate = l.any (fun p => p.2.isPrompt) ∧
      (l.any (fun p => p.2.isPrompt) = false → outArg = none →
        b.outcome.status = "abandoned") := by
  obtain ⟨hrec, hsteps, -, -, -, -⟩ := start_ok hstart
  intro b s2 hstop
  obtain ⟨-, -, hrep, hcan, hstatus, -, -, -, -⟩ := stop_ok hstop
  have hhp := hasPrompts_runOps l s1 hrec hsteps
  refine ⟨by rw [hrep, hhp], by rw [hcan, hhp], ?_⟩
  intro hfalse hnone
  rw [hstatus, hnone, hhp, hfalse]
  rfl

/-- Witness for C2 at a concrete run with one accepted prompt call. -/
theorem replicable_iff_prompt_accepted_witness :
    demoPromptArtifact.metadata.replicable
        = demoPromptOps.any (fun p => p.2.isPrompt) ∧
    demoPromptArtifact.outcome.canReplicate
        = demoPromptOps.any (fun p => p.2.isPrompt) ∧
    (demoPromptOps.any (fun p => p.2.isPrompt) = false →
      (none : Option StopOutcome) = none →
      demoPromptArtifact.outcome.status = "abandoned") :=
  replicable_iff_prompt_accepted 0 3000 none "" none initState demoStarted
    demoPromptOps rfl demoPromptArtifact (demoFinished 3) rfl

/-- C3: every mutation call made while the state is not recording is a
silent no-op: the state (log, counters, file-touch sets) is unchanged, and
every later evolution of the session, hence every later artifact, is
exactly as if the call had never happened. -/
theorem mutation_noop_when_not_recording (p : Nat × Op) (s : SessionState)
    (h : s.state ≠ RecordingState.recording) :
    applyOp p s = s ∧
    ∀ l : List (Nat × Op), runOps l (applyOp p s) = runOps l s := by
  have h1 := applyOp_not_recording p s h
  exact ⟨h1, fun l => by rw [h1]⟩

/-- Witness for C3: a prompt call against the idle fresh session. -/
theorem mutation_noop_when_not_recording_witness :
    applyOp (7, Op.addPrompt "late" none none) initState = initState ∧
    ∀ l : List (Nat × Op),
      runOps l (applyOp (7, Op.addPrompt "late" none none) initState)
        = runOps l initState :=
  mutation_noop_when_not_recording (7, Op.addPrompt "late" none none)
    initState (by decide)

/-- C4: start fails while recording, stop fails while not recording; a
second stop immediately after a successful one fails, the post-stop state
is idle, and (values being immutable in the embedding, and the source
check preceding any mutation) the failing call leaves the first artifact
and the session state untouched. -/
theorem protocol_violations_fail
    (now now2 : Nat) (title : Option String) (env env2 : String)
    (o o2 : Option StopOutcome) (s : SessionState) :
    (s.state = RecordingState.recording →
        s.start now title = Except.error "Recording already in progress") ∧
    (s.state ≠ RecordingState.recording →
        s.stop now env o = Except.error "No recording in progress") ∧
    (∀ b s1, s.stop now env o = Except.ok (b, s1) →
        s1.stop now2 env2 o2 = Except.error "No recording in progress" ∧
        s1.state = RecordingState.idle) := by
  refine ⟨?_, ?_, ?_⟩
  · intro h
    unfold SessionState.start
    rw [if_pos h]
  · intro h
    unfold SessionState.stop
    rw [if_pos h]
  · intro b s1 hstop
    have hs1 := (stop_ok hstop).2.2.2.2.2.2.2.2
    have hidle : s1.state = RecordingState.idle := by rw [hs1]
    refine ⟨?_, hidle⟩
    unfold SessionState.stop
    rw [if_pos (by rw [hidle]; decide)]

/-- Witness for C4: start rejected on the running demo session, and the
second stop after a successful stop rejected. -/
theorem protocol_violations_fail_witness :
    demoStarted.start 5 none = Except.error "Recording already in progress" ∧
    ((demoFinished 3).stop 9 "x" none
        = Except.error "No recording in progress" ∧
      (demoFinished 3).state = RecordingState.idle) :=
  ⟨(protocol_violations_fail 5 9 none "" "x" none none demoStarted).1 rfl,
   (protocol_violations_fail 3000 9 none "" "x" none none
       (runOps demoPromptOps demoStarted)).2.2 demoPromptArtifact
     (demoFinished 3) rfl⟩

/-- C5: the outcome file counts are the cardinalities of the distinct
path sets accumulated across all accepted action steps, so a path listed
by several action steps counts once. -/
theorem outcome_counts_distinct_file_paths
    (now now2 : Nat) (title : Option String) (env : String)
    (outArg : Option StopOutcome) (s0 s1 : SessionState) (l : List (Nat × Op))
    (hstart : s0.start now title = Except.ok s1) :
    ∀ b s2, (runOps l s1).stop now2 env outArg = Except.ok (b, s2) →
      b.outcome.filesCreated
          = ((l.map (fun p => p.2.filesCreatedList)).flatten).toFinset.card ∧
      b.outcome.filesModified
          = ((l.map (fun p => p.2.filesModifiedList)).flatten).toFinset.card := by
  obtain ⟨hrec, -, -, hfc, hfm, -⟩ := start_ok hstart
  intro b s2 hstop
  obtain ⟨-, -, -, -, -, -, hbc, hbm, -⟩ := stop_ok hstop
  obtain ⟨-, -, -, -, c5, c6⟩ := runOps_recording l s1 hrec
  constructor
  · rw [hbc, c5, hfc, length_setAddAll_nil]
  · rw [hbm, c6, hfm, length_setAddAll_nil]

/-- Witness for C5: two action calls with overlapping file lists yield
deduplicated counts of 2, not the per-step sums of 3. -/
theorem outcome_counts_distinct_file_paths_witness :
    demoActionArtifact.outcome.filesCreated
        = ((demoActionOps.map (fun p => p.2.filesCreatedList)).flatten).toFinset.card ∧
    demoActionArtifact.outcome.filesModified
        = ((demoActionOps.map (fun p => p.2.filesModifiedList)).flatten).toFinset.card :=
  outcome_counts_distinct_file_paths 0 5000 none "" none initState demoStarted
    demoActionOps rfl demoActionArtifact (demoFinished 4) rfl

/-- C6 counterexample: stop called with the explicit outcome
status failure, summary empty string; the artifact does not use exactly
those values: the summary field is the generated default
Recorded 0 steps, not the supplied empty string. -/
theorem explicit_outcome_empty_summary_cex :
    demoStarted.stop 9 "" (some { status := "failure", summary := "" })
      = Except.ok
          ({ version := "2.0.0", format := "slim",
             metadata := {
               id := 1, title := "Workflow 0", createdAt := 0,
               durationSeconds := 0, editor := "vscode",
               aiProvider := "copilot", replicable := false },
             steps := [],
             outcome := {
               status := "failure", summary := "Recorded 0 steps",
               filesCreated := 0, filesModified := 0, canReplicate := false } },
           demoFinished 2) ∧
    ("Recorded 0 steps" : String) ≠ "" :=
  ⟨rfl, by decide⟩

/-- C6 (amended): when stop receives an explicit outcome whose status and
summary are non-empty strings the artifact uses exactly those values;
an empty field falls back to the computed default (both fields pass
through the || merge); when the argument is omitted, status is success
exactly when a prompt step was accepted, else abandoned, and the summary
is the generated Recorded-N-steps string with N the number of accepted
steps. -/
theorem explicit_outcome_used_or_defaulted
    (now now2 : Nat) (title : Option String) (env : String)
    (s0 s1 : SessionState) (l : List (Nat × Op)) (st sm : String)
    (hstart : s0.start now title = Except.ok s1)
    (hst : st ≠ "") (hsm : sm ≠ "") :
    (∀ b s2,
        (runOps l s1).stop now2 env (some { status := st, summary := sm })
          = Except.ok (b, s2) →
        b.outcome.status = st ∧ b.outcome.summary = sm) ∧
    (∀ b s2,
        (runOps l s1).stop now2 env none = Except.ok (b, s2) →
        b.outcome.status
            = (if l.any (fun p => p.2.isPrompt) then "success" else "abandoned") ∧
        b.outcome.summary = "Recorded " ++ toString l.length ++ " steps") := by
  obtain ⟨hrec, hsteps, -, -, -, -⟩ := start_ok hstart
  constructor
  · intro b s2 hstop
    obtain ⟨-, -, -, -, hstatus, hsummary, -, -, -⟩ := stop_ok hstop
    constructor
    · rw [hstatus]
      simp [jsOr, truthy, hst]
    · rw [hsummary]
      simp [jsOr, truthy, hsm]
  · intro b s2 hstop
    obtain ⟨-, -, -, -, hstatus, hsummary, -, -, -⟩ := stop_ok hstop
    have hhp := hasPrompts_runOps l s1 hrec hsteps
    have hlen := length_steps_runOps l s1 hrec hsteps
    constructor
    · rw [hstatus, hhp]
      simp [jsOr, truthy]
    · rw [hsummary, hlen]
      simp [jsOr, truthy]

/-- The artifact from the demo prompt run stopped with an explicit
non-empty outcome. -/
def demoCustomArtifact : BuildlogFile :=
  { version := "2.0.0", format := "slim",
    metadata := {
      id := 1, title := "Workflow 0", createdAt := 0, durationSeconds := 3,
      editor := "vscode", aiProvider := "copilot", replicable := true },
    steps := [{ id := 2, timestamp := 1, sequence := 0,
                payload := StepPayload.prompt "p" none none }],
    outcome := {
      status := "failure", summary := "custom",
      filesCreated := 0, filesModified := 0, canReplicate := true } }

/-- Witness for the amended C6: an explicit non-empty outcome is copied
verbatim, and the omitted outcome yields the computed defaults. -/
theorem explicit_outcome_used_or_defaulted_witness :
    (demoCustomArtifact.outcome.status = "failure" ∧
      demoCustomArtifact.outcome.summary = "custom") ∧
    (demoPromptArtifact.outcome.status
        = (if demoPromptOps.any (fun p => p.2.isPrompt)
            then "success" else "abandoned") ∧
      demoPromptArtifact.outcome.summary
        = "Recorded " ++ toString demoPromptOps.length ++ " steps") :=
  have hthm := explicit_outcome_used_or_defaulted 0 3000 none "" initState
    demoStarted demoPromptOps "failure" "custom" rfl (by decide) (by decide)
  ⟨hthm.1 demoCustomArtifact (demoFinished 3) rfl,
   hthm.2 demoPromptArtifact (demoFinished 3) rfl⟩

/-- C7: after a successful stop every query accessor reports the idle
defaults; the returned artifact holds exactly the pre-stop step log; and
every later mutation call on the reset session is a no-op (in particular
nothing done later can change the step list or outcome counts of the
already-returned artifact, which is a value independent of the session). -/
theorem stop_resets_to_idle_defaults
    (now : Nat) (env : String) (o : Option StopOutcome) (s : SessionState) :
    ∀ b s1, s.stop now env o = Except.ok (b, s1) →
      s1.getState = RecordingState.idle ∧
      s1.getStepCount = 0 ∧
      s1.getPromptCount = 0 ∧
      s1.getTitle = "" ∧
      (∀ n2 : Nat, s1.getDuration n2 = 0) ∧
      s1.getStats = { totalSteps := 0, prompts := 0, actions := 0, notes := 0,
                      others := 0, filesCreated := 0, filesModified := 0 } ∧
      b.steps = s.steps ∧
      (∀ l : List (Nat × Op), runOps l s1 = s1) := by
  intro b s1 h
  obtain ⟨-, hbsteps, -, -, -, -, -, -, hs1⟩ := stop_ok h
  subst hs1
  refine ⟨rfl, rfl, rfl, rfl, fun n2 => rfl, rfl, hbsteps, ?_⟩
  intro l
  exact runOps_not_recording l _ (by simp)

/-- Witness for C7 at the demo prompt run. -/
theorem stop_resets_to_idle_defaults_witness :
    (demoFinished 3).getState = RecordingState.idle ∧
    (demoFinished 3).getStepCount = 0 ∧
    (demoFinished 3).getPromptCount = 0 ∧
    (demoFinished 3).getTitle = "" ∧
    (∀ n2 : Nat, (demoFinished 3).getDuration n2 = 0) ∧
    (demoFinished 3).getStats
        = { totalSteps := 0, prompts := 0, actions := 0, notes := 0,
            others := 0, filesCreated := 0, filesModified := 0 } ∧
    demoPromptArtifact.steps = (runOps demoPromptOps demoStarted).steps ∧
    (∀ l : List (Nat × Op), runOps l (demoFinished 3) = demoFinished 3) :=
  stop_resets_to_idle_defaults 3000 "" none (runOps demoPromptOps demoStarted)
    demoPromptArtifact (demoFinished 3) rfl

/-- C8: while recording, processing a batch equals running exactly the
mutation calls of its well-formed recognized lines in order; deleting an
unparseable line from a batch never changes the result (one bad line does
not abort the rest); and a parsed entry yields a mutation call exactly
when its type discriminator is recognized. -/
theorem feed_batch_per_line_isolation
    (now : Nat) (batch : List (Option AgentFeedEntry)) (s : SessionState)
    (h : s.state = RecordingState.recording) :
    processBatch now batch s
        = runOps (((batch.filterMap id).filterMap entryToOp).map
            (fun op => (now, op))) s ∧
    (∀ xs ys : List (Option AgentFeedEntry),
        processBatch now (xs ++ none :: ys) s
          = processBatch now (xs ++ ys) s) ∧
    ((batch.filterMap id).filterMap entryToOp).length
        = ((batch.filterMap id).filter AgentFeedEntry.isRecognized).length ∧
    (∀ e : AgentFeedEntry, (entryToOp e).isSome = e.isRecognized) := by
  refine ⟨processBatch_recording now batch s h, ?_,
    length_filterMap_entryToOp _, entryToOp_isSome⟩
  intro xs ys
  rw [processBatch_recording now _ s h, processBatch_recording now _ s h]
  have hfm : ((xs ++ none :: ys).filterMap
        (id : Option AgentFeedEntry → Option AgentFeedEntry))
      = (xs ++ ys).filterMap id := by
    simp [List.filterMap_append, List.filterMap_cons]
  rw [hfm]

/-- Concrete feed batch: a prompt line, an unparseable line, an entry with
an unrecognized discriminator, and an action line. -/
def demoBatch : List (Option AgentFeedEntry) :=
  [some (AgentFeedEntry.prompt "Build a CTA component" none none none),
   none,
   some (AgentFeedEntry.unknown "mystery"),
   some (AgentFeedEntry.action (some "Created CTA function") none none
     (some ["app.js"]) none none)]

/-- Witness for C8 at the concrete mixed batch. -/
theorem feed_batch_per_line_isolation_witness :
    processBatch 7 demoBatch demoStarted
        = runOps (((demoBatch.filterMap id).filterMap entryToOp).map
            (fun op => (7, op))) demoStarted ∧
    ((demoBatch.filterMap id).filterMap entryToOp).length
        = ((demoBatch.filterMap id).filter AgentFeedEntry.isRecognized).length :=
  have hthm := feed_batch_per_line_isolation 7 demoBatch demoStarted rfl
  ⟨hthm.1, hthm.2.2.1⟩

/-- C9 counterexample: a prompt entry whose raw field is present but empty.
The claim predicts addPrompt with the raw value (empty) as content and the
content field demoted to intent; the code, using JS truthiness, instead
keeps the content field as the prompt and the entry intent label. -/
theorem prompt_raw_empty_cex :
    (addEntryToSession 0
        (AgentFeedEntry.prompt "c" (some "") none (some "i"))
        demoStarted).steps.map BuildlogStep.payload
      = [StepPayload.prompt "c" none (some "i")] ∧
    [StepPayload.prompt "c" none (some "i")]
      ≠ [StepPayload.prompt "" none (some "c")] :=
  ⟨rfl, by decide⟩

/-- C9 (amended): for a feed prompt entry, a present and non-empty raw
field is the authoritative prompt content with the short content field
demoted to the intent label; an absent raw, and likewise a
present-but-empty raw (JS truthiness treats it as absent), makes the
content field the prompt with the entry own intent kept; in every case the
entry translates into exactly one addPrompt call. -/
theorem prompt_raw_precedence
    (now : Nat) (content r : String) (ctx : Option (List String))
    (intentOpt : Option String) (s : SessionState) (hr : r ≠ "") :
    addEntryToSession now
        (AgentFeedEntry.prompt content (some r) ctx intentOpt) s
      = s.addPrompt now r ctx (some content) ∧
    addEntryToSession now
        (AgentFeedEntry.prompt content none ctx intentOpt) s
      = s.addPrompt now content ctx intentOpt ∧
    addEntryToSession now
        (AgentFeedEntry.prompt content (some "") ctx intentOpt) s
      = s.addPrompt now content ctx intentOpt ∧
    entryToOp (AgentFeedEntry.prompt content (some r) ctx intentOpt)
      = some (Op.addPrompt r ctx (some content)) := by
  have ht : truthy (some r) = true := by simp [truthy, hr]
  refine ⟨?_, rfl, rfl, ?_⟩
  · simp [addEntryToSession, jsOr, ht]
  · simp [entryToOp, jsOr, ht]

/-- Witness for the amended C9 at a concrete entry with non-empty raw. -/
theorem prompt_raw_precedence_witness :
    addEntryToSession 5
        (AgentFeedEntry.prompt "c" (some "R") none (some "i")) demoStarted
      = demoStarted.addPrompt 5 "R" none (some "c") ∧
    addEntryToSession 5
        (AgentFeedEntry.prompt "c" none none (some "i")) demoStarted
      = demoStarted.addPrompt 5 "c" none (some "i") ∧
    addEntryToSession 5
        (AgentFeedEntry.prompt "c" (some "") none (some "i")) demoStarted
      = demoStarted.addPrompt 5 "c" none (some "i") ∧
    entryToOp (AgentFeedEntry.prompt "c" (some "R") none (some "i"))
      = some (Op.addPrompt "R" none (some "c")) :=
  prompt_raw_precedence 5 "c" "R" none (some "i") demoStarted (by decide)

lemma jsOr_ne_empty (x : Option String) (d : String) (hd : d ≠ "") :
    jsOr x d ≠ "" := by
  unfold jsOr
  split
  · next htr =>
      cases x with
      | none => simp [truthy] at htr
      | some s =>
          simp [truthy] at htr
          simpa using htr
  · exact hd

lemma recorded_summary_ne_empty (n : Nat) :
    ("Recorded " ++ toString n ++ " steps" : String) ≠ "" := by
  intro hcon
  have h2 := congrArg String.length hcon
  rw [String.length_append, String.length_append] at h2
  have h9 : ("Recorded " : String).length = 9 := rfl
  have h6 : (" steps" : String).length = 6 := rfl
  have h0 : ("" : String).length = 0 := rfl
  omega

/-- C10: an explicit outcome field that is the empty string is treated as
if absent (both fields are merged through the || operator): the computed
default is used instead, and the artifact never carries an empty status
or summary. -/
theorem empty_outcome_fields_use_defaults
    (now : Nat) (env : String) (s : SessionState) (sm st : String) :
    (∀ b s2, s.stop now env (some { status := "", summary := sm })
        = Except.ok (b, s2) →
      b.outcome.status = (if s.hasPrompts then "success" else "abandoned")) ∧
    (∀ b s2, s.stop now env (some { status := st, summary := "" })
        = Except.ok (b, s2) →
      b.outcome.summary
        = "Recorded " ++ toString s.steps.length ++ " steps") ∧
    (∀ (o : Option StopOutcome) b s2, s.stop now env o = Except.ok (b, s2) →
      b.outcome.status ≠ "" ∧ b.outcome.summary ≠ "") := by
  refine ⟨?_, ?_, ?_⟩
  · intro b s2 h
    have hstatus := (stop_ok h).2.2.2.2.1
    rw [hstatus]
    simp [jsOr, truthy]
  · intro b s2 h
    have hsummary := (stop_ok h).2.2.2.2.2.1
    rw [hsummary]
    simp [jsOr, truthy]
  · intro o b s2 h
    have hstatus := (stop_ok h).2.2.2.2.1
    have hsummary := (stop_ok h).2.2.2.2.2.1
    constructor
    · rw [hstatus]
      apply jsOr_ne_empty
      split <;> decide
    · rw [hsummary]
      exact jsOr_ne_empty _ _ (recorded_summary_ne_empty _)

/-- Artifact from stopping the empty demo session with an explicit empty
status and non-empty summary. -/
def demoEmptyStatusArtifact : BuildlogFile :=
  { version := "2.0.0", format := "slim",
    metadata := {
      id := 1, title := "Workflow 0", createdAt := 0, durationSeconds := 0,
      editor := "vscode", aiProvider := "copilot", replicable := false },
    steps := [],
    outcome := {
      status := "abandoned", summary := "sm",
      filesCreated := 0, filesModified := 0, canReplicate := false } }

/-- Artifact from stopping the empty demo session with an explicit
non-empty status and empty summary. -/
def demoEmptySummaryArtifact : BuildlogFile :=
  { version := "2.0.0", format := "slim",
    metadata := {
      id := 1, title := "Workflow 0", createdAt := 0, durationSeconds := 0,
      editor := "vscode", aiProvider := "copilot", replicable := false },
    steps := [],
    outcome := {
      status := "failure", summary := "Recorded 0 steps",
      filesCreated := 0, filesModified := 0, canReplicate := false } }

/-- Witness for C10 at the concrete empty-field outcomes. -/
theorem empty_outcome_fields_use_defaults_witness :
    demoEmptyStatusArtifact.outcome.status
        = (if demoStarted.hasPrompts then "success" else "abandoned") ∧
    demoEmptySummaryArtifact.outcome.summary
        = "Recorded " ++ toString demoStarted.steps.length ++ " steps" ∧
    (demoEmptySummaryArtifact.outcome.status ≠ "" ∧
      demoEmptySummaryArtifact.outcome.summary ≠ "") :=
  have hthm := empty_outcome_fields_use_defaults 9 "" demoStarted "sm" "failure"
  ⟨hthm.1 demoEmptyStatusArtifact (demoFinished 2) rfl,
   hthm.2.1 demoEmptySummaryArtifact (demoFinished 2) rfl,
   hthm.2.2 (some { status := "failure", summary := "" })
     demoEmptySummaryArtifact (demoFinished 2) rfl⟩

end Buildlog
